import Mathlib

/-!
Verification development for the ClubMatch proximity match-formation engine
and its AI-reply orchestration (src/pages/ProfileSetup.jsx `Matching`,
`MatchResult`; src/pages/Matches.jsx `ActiveUsers.handleMatch`;
src/pages/Chat.jsx `Chat`).

User identifiers are the backend's ids, compared with JavaScript `<`; the
code only uses that comparison as a total order (spec: "a total order on user
identifiers"), so `UserId` is `ℕ` with its linear order.
Optional string columns (`gender`, `seeking_gender`) are `Option String`;
JavaScript truthiness of such a column (`!x`) is false for `null`/`undefined`
(here `none`) and for the empty string.
-/

abbrev UserId := ℕ

/-- A row of the `users` table as read through `user_venues.select('*, users(*)')`. -/
structure UserRow where
  id : UserId
  gender : Option String
  seeking_gender : Option String
deriving DecidableEq

/-- A row of the `user_venues` table joined with its `users` row:
presence of one user at the venue, with an optional coordinate. -/
structure UVRow where
  users : UserRow
  latitude : Option ℝ
  longitude : Option ℝ

/-- A row of the `matches` table.  `id` is the store-assigned primary key. -/
structure MatchRow where
  id : ℕ
  user1_id : UserId
  user2_id : UserId
  icebreaker : Option String
deriving DecidableEq

/-- The requester's own profile fields used by the eligibility filter. -/
structure Profile where
  gender : Option String
  seeking_gender : Option String

/-- JavaScript truthiness of an optional string column: `!x` is true exactly
for `null`/`undefined` and for `''`. -/
def jsPresent : Option String → Bool
  | none => false
  | some s => s != ""

/-- The canonical-pair computation in `tryAutoMatch`
(ProfileSetup.jsx: `const [user1Id, user2Id] = user.id < targetUserId ? [user.id, targetUserId] : [targetUserId, user.id]`). -/
def tryAutoMatchPair (meId targetId : UserId) : UserId × UserId :=
  if meId < targetId then (meId, targetId) else (targetId, meId)

/-- The identical canonical-pair computation in `forceMatchAfterWait`. -/
def forceMatchPair (meId targetId : UserId) : UserId × UserId :=
  if meId < targetId then (meId, targetId) else (targetId, meId)

/-- The identical canonical-pair computation in `handleMatch` (Matches.jsx). -/
def handleMatchPair (meId targetId : UserId) : UserId × UserId :=
  if meId < targetId then (meId, targetId) else (targetId, meId)

/-! ## Eligibility filter (`loadPoolAndMatch`, ProfileSetup.jsx `Matching`) -/

/-- The mutual-interest test of `loadPoolAndMatch`: the other user is seeking
my gender or `'all'`, and I am seeking their gender or `'all'`.  JavaScript
`===` between two nullable string columns is `Option` equality here
(`null === null` is true, as is `none == none`). -/
def mutualInterest (me : Profile) (other : UserRow) : Bool :=
  (other.seeking_gender == some "all" || other.seeking_gender == me.gender) &&
  (me.seeking_gender == some "all" || me.seeking_gender == other.gender)

/-- `eligibleUsers` of `loadPoolAndMatch`: rows at the venue whose user has
both gender fields truthy and passes the mutual-interest test. -/
def eligibleUsers (me : Profile) (rows : List UVRow) : List UVRow :=
  rows.filter fun uv =>
    jsPresent uv.users.gender && jsPresent uv.users.seeking_gender &&
    mutualInterest me uv.users

/-- The `matches` query of `loadPoolAndMatch`:
`.or(user1_id.eq.me, user2_id.eq.me)`. -/
def myMatches (meId : UserId) (store : List MatchRow) : List MatchRow :=
  store.filter fun m => m.user1_id == meId || m.user2_id == meId

/-- `matchedUserIds` of `loadPoolAndMatch`: for each match involving me,
the other side's id. -/
def matchedUserIds (meId : UserId) (store : List MatchRow) : List UserId :=
  (myMatches meId store).map fun m =>
    if m.user1_id == meId then m.user2_id else m.user1_id

/-- `availableUsers` of `loadPoolAndMatch`: eligible users not already
matched with me. -/
def availableUsers (me : Profile) (meId : UserId) (rows : List UVRow)
    (store : List MatchRow) : List UVRow :=
  (eligibleUsers me rows).filter fun uv =>
    !((matchedUserIds meId store).contains uv.users.id)

/-! ## Distance (`calculateDistance`, ProfileSetup.jsx lines 221–233 and
595–607 — two identical copies) -/

/-- The intermediate `a` of the haversine formula (`const a = ...`). -/
noncomputable def havA (lat1 lon1 lat2 lon2 : ℝ) : ℝ :=
  Real.sin ((lat2 - lat1) * Real.pi / 180 / 2) *
      Real.sin ((lat2 - lat1) * Real.pi / 180 / 2) +
    Real.cos (lat1 * Real.pi / 180) * Real.cos (lat2 * Real.pi / 180) *
      (Real.sin ((lon2 - lon1) * Real.pi / 180 / 2) *
        Real.sin ((lon2 - lon1) * Real.pi / 180 / 2))

/-- `Math.atan2 y x`, on the ideal reals. -/
noncomputable def atan2 (y x : ℝ) : ℝ :=
  if 0 < x then Real.arctan (y / x)
  else if x < 0 ∧ 0 ≤ y then Real.arctan (y / x) + Real.pi
  else if x < 0 ∧ y < 0 then Real.arctan (y / x) - Real.pi
  else if x = 0 ∧ 0 < y then Real.pi / 2
  else if x = 0 ∧ y < 0 then -(Real.pi / 2)
  else 0

/-- The haversine great-circle distance in km on non-null coordinates
(`const c = 2 * Math.atan2(...); return R * c`). -/
noncomputable def haversine (lat1 lon1 lat2 lon2 : ℝ) : ℝ :=
  6371 * (2 * atan2 (Real.sqrt (havA lat1 lon1 lat2 lon2))
    (Real.sqrt (1 - havA lat1 lon1 lat2 lon2)))

/-- `calculateDistance(lat1, lon1, lat2, lon2)`.  The guard
`if (!lat1 || !lon1 || !lat2 || !lon2) return null` is JavaScript truthiness
on numbers: it returns `null` when any argument is `null`/`undefined` or
exactly `0`. -/
noncomputable def calculateDistance (lat1 lon1 lat2 lon2 : Option ℝ) : Option ℝ :=
  match lat1, lon1, lat2, lon2 with
  | some a, some b, some c, some d =>
      if a = 0 ∨ b = 0 ∨ c = 0 ∨ d = 0 then none
      else some (haversine a b c d)
  | _, _, _, _ => none

/-! ## Distance ranking (`tryAutoMatch`, ProfileSetup.jsx lines 452–467) -/

/-- A presence row paired with its computed distance to the requester
(`{ ...uv, distance }`). -/
structure Ranked where
  uv : UVRow
  distance : Option ℝ

/-- `usersWithDistance`: map each available user to itself plus the haversine
distance from the requester's `user_venues` coordinate. -/
noncomputable def usersWithDistance (meLat meLon : Option ℝ)
    (avail : List UVRow) : List Ranked :=
  avail.map fun uv =>
    ⟨uv, calculateDistance meLat meLon uv.latitude uv.longitude⟩

/-- The sort comparator of `tryAutoMatch`
(`if (a.distance === null) return 1; if (b.distance === null) return -1;
return a.distance - b.distance;`), expressed as "the comparator value is
≤ 0", i.e. `a` may stay before `b`. -/
noncomputable def distCmpLE (a b : Ranked) : Bool :=
  match a.distance, b.distance with
  | none, _ => false
  | some _, none => true
  | some x, some y => decide (x - y ≤ 0)

/-- Insertion step of the comparison sort modelling `Array.prototype.sort`. -/
def insertBy {α : Type} (le : α → α → Bool) (x : α) : List α → List α
  | [] => [x]
  | y :: ys => if le x y then x :: y :: ys else y :: insertBy le x ys

/-- A comparison sort driven by the comparator, modelling
`Array.prototype.sort(cmp)` (the relative order of pairs on which the
comparator is inconsistent — here two `null` distances — is
implementation-defined in the engine and is a model choice). -/
def sortBy {α : Type} (le : α → α → Bool) (l : List α) : List α :=
  l.foldr (insertBy le) []

/-- The ordering required by the spec of the ranker on a sorted output:
defined distances ascend and come before all undefined distances. -/
def distLE (a b : Ranked) : Prop :=
  match a.distance, b.distance with
  | some x, some y => x ≤ y
  | none, some _ => False
  | _, none => True

/-- Candidate has a null-free coordinate pair. -/
def nullFreeCoords (uv : UVRow) : Bool :=
  uv.latitude.isSome && uv.longitude.isSome

/-- The ordering asserted by the claim, taken at its word: every candidate
with a null-free coordinate pair is placed before every candidate whose
computed distance is undefined. -/
def rankerClaimOrder (out : List Ranked) : Prop :=
  ∀ i j : Fin out.length, i ≠ j → nullFreeCoords (out.get i).uv = true →
    (out.get j).distance = none → (i : ℕ) < (j : ℕ)

/-! ## Match store and match formation -/

/-- Does the store already hold a record for this (canonically ordered)
pair?  This is the uniqueness-violation condition of the conditional insert. -/
def hasPair (store : List MatchRow) (p : UserId × UserId) : Bool :=
  store.any fun m => m.user1_id == p.1 && m.user2_id == p.2

/-- The store's conditional insert for `matches`, keyed on the canonical
pair: on conflict it returns an error flag and no data (`data` is `none`
exactly when `error` is `true`); otherwise it appends a row with a
store-assigned fresh id (modelled as the current length; matches are never
deleted). -/
def insertMatch (store : List MatchRow) (u1 u2 : UserId) (ice : Option String) :
    List MatchRow × Option MatchRow × Bool :=
  if hasPair store (u1, u2) then (store, none, true)
  else
    let row : MatchRow := ⟨store.length, u1, u2, ice⟩
    (store ++ [row], some row, false)

/-- The per-session ephemeral matching state: `matchFound` holds the observed
match id (the `matchFound`/`matchFoundRef` pair), `matching` is the
MatchAttemptGuard (`matching`/`matchingRef`). -/
structure SessionState where
  matchFound : Option ℕ
  matching : Bool
deriving DecidableEq

/-- `tryAutoMatch(availableUsers, venueData)` as a big-step operation on the
store and session state: guard check, rank by distance, canonical pair,
conditional insert.  On insert error the code throws, the catch logs, and no
session state is updated (there is no read-back); on success `matchFound` is
set to the new row's id.  The `finally` block restores `matching`, so the
net session `matching` flag is unchanged.  Callers only invoke it with a
non-empty pool; the empty case is a no-op here. -/
noncomputable def tryAutoMatch (meId : UserId) (meLat meLon : Option ℝ)
    (avail : List UVRow) (store : List MatchRow) (st : SessionState) :
    List MatchRow × SessionState :=
  if st.matchFound.isSome || st.matching then (store, st)
  else
    match sortBy distCmpLE (usersWithDistance meLat meLon avail) with
    | [] => (store, st)
    | t :: _ =>
      let p := tryAutoMatchPair meId t.uv.users.id
      match insertMatch store p.1 p.2 none with
      | (store', some row, _) => (store', { st with matchFound := some row.id })
      | (store', none, _) => (store', st)

/-- The relaxed pool of `forceMatchAfterWait`: any other user at the venue
with both gender fields truthy — the mutual-interest test is not applied. -/
def forcePool (rows : List UVRow) : List UVRow :=
  rows.filter fun uv =>
    jsPresent uv.users.gender && jsPresent uv.users.seeking_gender

/-- `forceMatchAfterWait` as a big-step operation: guard check, relaxed pool,
first candidate (no distance ranking), canonical pair, conditional insert
with no icebreaker.  `if (!error && data)` sets `matchFound`; on error or
empty pool nothing changes. -/
def forceMatchAfterWait (meId : UserId) (rows : List UVRow)
    (store : List MatchRow) (st : SessionState) : List MatchRow × SessionState :=
  if st.matchFound.isSome || st.matching then (store, st)
  else
    match forcePool rows with
    | [] => (store, st)
    | t :: _ =>
      let p := forceMatchPair meId t.users.id
      match insertMatch store p.1 p.2 none with
      | (store', some row, _) => (store', { st with matchFound := some row.id })
      | (store', none, _) => (store', st)

/-! ## Manual match (`handleMatch`, Matches.jsx `ActiveUsers`) -/

/-- The hard-coded fallback opening line of `handleMatch`. -/
def fallbackIcebreaker : String := "Hey! I saw you here and thought I'd say hi 👋"

/-- The icebreaker attached by `handleMatch`: the trimmed AI completion on
success, the fixed fallback when the AI call fails (`catch (aiError)`). -/
def handleMatchIcebreaker (ai : Option String) : String :=
  match ai with
  | some s => s.trim
  | none => fallbackIcebreaker

/-- `handleMatch(targetUserId)`: canonical pair, icebreaker generation with
fallback, then the conditional insert carrying the icebreaker. -/
def handleMatch (meId targetId : UserId) (ai : Option String)
    (store : List MatchRow) : List MatchRow × Option MatchRow × Bool :=
  let p := handleMatchPair meId targetId
  insertMatch store p.1 p.2 (some (handleMatchIcebreaker ai))

/-! ## Chat reply orchestration (Chat.jsx) -/

/-- A row of the `messages` table (fields used by the orchestrator). -/
structure ChatMsg where
  sender_id : UserId
  content : String
deriving DecidableEq

/-- The chat-side shared state: the `messages` table plus the per-session
ReplyGuard pair (`aiReplyRef.current` and the `generatingAI` state, which the
code sets and clears together). -/
structure ChatShared where
  messages : List ChatMsg
  aiReply : Bool
  generating : Bool
deriving DecidableEq

/-- The check on the re-read message list: non-empty and its most recent
message was sent by the human party
(`lastMessage.sender_id === user.id`). -/
def lastFromHuman (meId : UserId) (l : List ChatMsg) : Bool :=
  match l.getLast? with
  | some m => m.sender_id == meId
  | none => false

/-- `generateAIReply` as a big-step operation with explicit outcomes:
`aiContent` is the AI completion (`none` = the call threw), `insertOk` is
whether the message append succeeded.  Early return when the guard is
already set; otherwise set the guard, run the outcome, and clear the guard
unconditionally in the `finally` step. -/
def generateAIReply (otherId : UserId) (aiContent : Option String)
    (insertOk : Bool) (sh : ChatShared) : ChatShared :=
  if sh.aiReply || sh.generating then sh
  else
    let sh1 : ChatShared := { sh with aiReply := true, generating := true }
    let sh2 : ChatShared :=
      match aiContent with
      | none => sh1
      | some reply =>
        if insertOk then
          { sh1 with messages := sh1.messages ++ [⟨otherId, reply.trim⟩] }
        else sh1
    { sh2 with aiReply := false, generating := false }

/-- Program counter of one reply-check tick (the `setTimeout` callback of
`sendMessage`): capture the re-read message list, run the atomic
check-and-set continuation, generate-and-append, clear the guard. -/
inductive TickPC where
  | capture
  | check
  | gen
  | clear
  | done
deriving DecidableEq

/-- Local state of one reply-check tick: its program counter, the message
snapshot its store read returned, and how many replies it has appended. -/
structure TickLocal where
  pc : TickPC
  snap : List ChatMsg
  appended : ℕ
deriving DecidableEq

/-- Initial local state of a tick. -/
def tickInit : TickLocal := ⟨.capture, [], 0⟩

/-- One atomic step of a reply-check tick.  `capture` models the store
serving the tick's message query (a snapshot of the table at that moment);
`check` is the client continuation that runs when the response arrives: it
tests the snapshot's last sender and the ReplyGuard and atomically sets the
guard (no `await` separates the test from the set).  `gen` is the AI call
plus append (`ok` = both succeeded); `clear` is the unconditional `finally`. -/
def tickStep (meId otherId : UserId) (reply : String) (ok : Bool)
    (sh : ChatShared) (lo : TickLocal) : ChatShared × TickLocal :=
  match lo.pc with
  | .capture => (sh, { lo with snap := sh.messages, pc := .check })
  | .check =>
      if lastFromHuman meId lo.snap && !sh.aiReply && !sh.generating then
        ({ sh with aiReply := true, generating := true }, { lo with pc := .gen })
      else (sh, { lo with pc := .done })
  | .gen =>
      (if ok then { sh with messages := sh.messages ++ [⟨otherId, reply.trim⟩] }
       else sh,
       { lo with pc := .clear, appended := lo.appended + (if ok then 1 else 0) })
  | .clear => ({ sh with aiReply := false, generating := false }, { lo with pc := .done })
  | .done => (sh, lo)

/-- Shared chat state plus the local states of two overlapping reply-check
ticks for the same match in one session. -/
structure TwoTicks where
  sh : ChatShared
  t1 : TickLocal
  t2 : TickLocal
deriving DecidableEq

/-- Run one atomic step of tick 1 (`first = true`) or tick 2. -/
def twoTickStep (meId otherId : UserId) (r1 r2 : String) (ok1 ok2 : Bool)
    (s : TwoTicks) (first : Bool) : TwoTicks :=
  if first then
    let p := tickStep meId otherId r1 ok1 s.sh s.t1
    { s with sh := p.1, t1 := p.2 }
  else
    let p := tickStep meId otherId r2 ok2 s.sh s.t2
    { s with sh := p.1, t2 := p.2 }

/-- Run the two ticks under an interleaving schedule (`true` = tick 1
steps). -/
def runTwoTicks (meId otherId : UserId) (r1 r2 : String) (ok1 ok2 : Bool)
    (sched : List Bool) (s : TwoTicks) : TwoTicks :=
  sched.foldl (twoTickStep meId otherId r1 r2 ok1 ok2) s

/-- Number of messages in a list sent by the given user id. -/
def countFrom (id : UserId) (l : List ChatMsg) : ℕ :=
  (l.filter fun m => m.sender_id == id).length

/-- Invariant of a tick's local state: before the generate step has run the
tick has appended nothing, and it never appends more than once. -/
def TickInv (lo : TickLocal) : Prop :=
  (lo.pc = .capture ∨ lo.pc = .check ∨ lo.pc = .gen → lo.appended = 0) ∧
  lo.appended ≤ 1

/-! ## Wait escalator (ProfileSetup.jsx lines 259–271 plus
`forceMatchAfterWait` as the forced attempt) -/

/-- `waitSeconds = 5 + Math.random() * 3`, as a function of the drawn
`Math.random()` value. -/
def drawDeadline (r : ℚ) : ℚ := 5 + r * 3

/-- State of one matching session's wait escalator: the accumulated
`elapsed` (in seconds, 0.1 per 100 ms timer tick), whether a match has
formed (`matchFoundRef`), whether a match attempt is in flight
(`matchingRef`, the MatchAttemptGuard), and how many times the escalator
has fired (called `forceMatchAfterWait`). -/
structure WaitState where
  elapsed : ℚ
  matchFound : Bool
  matching : Bool
  fires : ℕ
deriving DecidableEq

/-- Events of the escalator: a 100 ms timer tick, or the completion of an
in-flight forced attempt (`found` = it formed a match). -/
inductive WaitEv where
  | tick
  | complete (found : Bool)

/-- One escalator event.  A tick adds 0.1 s and fires
(`forceMatchAfterWait()` — which immediately sets the guard) exactly when
`elapsed >= waitSeconds && !matchFoundRef.current && !matchingRef.current`.
The interval is never cleared after a fire.  A completion clears the guard
(the `finally` block) and records a formed match. -/
def waitStep (d : ℚ) (st : WaitState) : WaitEv → WaitState
  | .tick =>
    if st.elapsed + 1/10 ≥ d ∧ st.matchFound = false ∧ st.matching = false then
      ⟨st.elapsed + 1/10, st.matchFound, true, st.fires + 1⟩
    else
      ⟨st.elapsed + 1/10, st.matchFound, st.matching, st.fires⟩
  | .complete f =>
    if st.matching then ⟨st.elapsed, st.matchFound || f, false, st.fires⟩
    else st

/-- Run the escalator over a sequence of events. -/
def runWait (d : ℚ) (evs : List WaitEv) (st : WaitState) : WaitState :=
  evs.foldl (waitStep d) st

/-! ## Concrete scenario inputs used by counterexamples and witnesses -/

/-- A candidate present at the venue with no recorded coordinate. -/
def uvCand : UVRow := ⟨⟨1, some "female", some "male"⟩, none, none⟩

/-- A session that has neither found a match nor has an attempt in flight. -/
def initSession : SessionState := ⟨none, false⟩

/-- A store already holding the canonical record for the pair {1, 2}
(created concurrently by the other session), with match id 0. -/
def store0 : List MatchRow := [⟨0, 1, 2, none⟩]

/-- A candidate with a null-free coordinate pair. -/
def uvKnownA : UVRow := ⟨⟨3, some "female", some "male"⟩, some 1, some 2⟩

/-- Another candidate with a null-free coordinate pair. -/
def uvKnownB : UVRow := ⟨⟨4, some "male", some "female"⟩, some 3, some 4⟩

/-- Chat state after the human (id 7) has sent two messages and the guard
was reset by `sendMessage`. -/
def chatInit : ChatShared := ⟨[⟨7, "m1"⟩, ⟨7, "m2"⟩], false, false⟩

/-- The interleaving in which tick 2's store read is served while tick 1 is
generating, and tick 2's continuation runs after tick 1 has appended its
reply and cleared the guard. -/
def staleSched : List Bool := [true, true, false, true, true, false, false, false]

/-- Escalator start state. -/
def waitInit : WaitState := ⟨0, false, false, 0⟩

/-- 50 timer ticks (5.0 s), then the fired forced attempt completes without
a match, then one more timer tick. -/
def refireEvs : List WaitEv :=
  List.replicate 50 .tick ++ [.complete false, .tick]

/-! # Theorems -/

/-- Claim C2: every match-creation path (auto, forced, manual) computes the
same canonical pair for distinct user ids: the smaller id first and the
larger id second, independently of which user initiates. -/
theorem canonicalPair_all_paths (x y : UserId) (h : x ≠ y) :
    tryAutoMatchPair x y = (min x y, max x y) ∧
    forceMatchPair x y = (min x y, max x y) ∧
    handleMatchPair x y = (min x y, max x y) ∧
    tryAutoMatchPair x y = tryAutoMatchPair y x ∧
    forceMatchPair x y = forceMatchPair y x ∧
    handleMatchPair x y = handleMatchPair y x := by
  have main : ∀ a b : UserId, a ≠ b → tryAutoMatchPair a b = (min a b, max a b) := by
    intro a b hab
    rcases lt_or_gt_of_ne hab with hlt | hgt
    · unfold tryAutoMatchPair
      rw [if_pos hlt, min_eq_left hlt.le, max_eq_right hlt.le]
    · unfold tryAutoMatchPair
      rw [if_neg (lt_asymm hgt), min_eq_right hgt.le, max_eq_left hgt.le]
  have swap : ∀ a b : UserId, a ≠ b → tryAutoMatchPair a b = tryAutoMatchPair b a := by
    intro a b hab
    rw [main a b hab, main b a hab.symm, min_comm, max_comm]
  exact ⟨main x y h, main x y h, main x y h, swap x y h, swap x y h, swap x y h⟩

/-- Witness for C2 at the concrete pair (2, 1). -/
theorem canonicalPair_all_paths_witness :
    (2 : UserId) ≠ 1 ∧ tryAutoMatchPair 2 1 = (min 2 1, max 2 1) :=
  ⟨by decide, (canonicalPair_all_paths 2 1 (by decide)).1⟩

/-- Claim C4: whenever a reply cycle actually starts (the guard was clear on
entry), the ReplyGuard pair is cleared at the end for every outcome: AI
success, AI failure, and append failure. -/
theorem replyGuard_cleared (otherId : UserId) (ai : Option String) (ins : Bool)
    (sh : ChatShared) (h1 : sh.aiReply = false) (h2 : sh.generating = false) :
    (generateAIReply otherId ai ins sh).aiReply = false ∧
    (generateAIReply otherId ai ins sh).generating = false := by
  cases ai <;> cases ins <;> simp [generateAIReply, h1, h2]

/-- Witness for C4 at a concrete state with a failing AI call. -/
theorem replyGuard_cleared_witness :
    (⟨[], false, false⟩ : ChatShared).aiReply = false ∧
    ((generateAIReply 8 none true ⟨[], false, false⟩).aiReply = false ∧
      (generateAIReply 8 none true ⟨[], false, false⟩).generating = false) :=
  ⟨rfl, replyGuard_cleared 8 none true ⟨[], false, false⟩ rfl rfl⟩

/-- Claim C10: `calculateDistance` returns `null` whenever any of its four
arguments is `null` or exactly `0`, and such a candidate is therefore paired
with an undefined distance by the ranker. -/
theorem calculateDistance_zero_is_null :
    (∀ lat1 lon1 lat2 lon2 : Option ℝ,
      (lat1 = none ∨ lat1 = some 0 ∨ lon1 = none ∨ lon1 = some 0 ∨
        lat2 = none ∨ lat2 = some 0 ∨ lon2 = none ∨ lon2 = some 0) →
      calculateDistance lat1 lon1 lat2 lon2 = none) ∧
    (∀ (meLat meLon : Option ℝ) (avail : List UVRow) (uv : UVRow),
      uv ∈ avail →
      (uv.latitude = none ∨ uv.latitude = some 0 ∨
        uv.longitude = none ∨ uv.longitude = some 0) →
      (⟨uv, none⟩ : Ranked) ∈ usersWithDistance meLat meLon avail) := by
  have main : ∀ lat1 lon1 lat2 lon2 : Option ℝ,
      (lat1 = none ∨ lat1 = some 0 ∨ lon1 = none ∨ lon1 = some 0 ∨
        lat2 = none ∨ lat2 = some 0 ∨ lon2 = none ∨ lon2 = some 0) →
      calculateDistance lat1 lon1 lat2 lon2 = none := by
    intro lat1 lon1 lat2 lon2 h
    rcases lat1 with _ | a <;> rcases lon1 with _ | b <;>
      rcases lat2 with _ | c <;> rcases lon2 with _ | d <;> try rfl
    have hz : a = 0 ∨ b = 0 ∨ c = 0 ∨ d = 0 := by simpa using h
    simp only [calculateDistance]
    exact if_pos hz
  refine ⟨main, ?_⟩
  intro meLat meLon avail uv hmem hz
  have hd : calculateDistance meLat meLon uv.latitude uv.longitude = none := by
    apply main
    tauto
  unfold usersWithDistance
  exact List.mem_map.mpr ⟨uv, hmem, by rw [hd]⟩

/-- Witness for C10: a candidate sitting exactly on the equator. -/
theorem calculateDistance_zero_is_null_witness :
    ((some 1 : Option ℝ) = none ∨ (some 1 : Option ℝ) = some 0 ∨
      (some 1 : Option ℝ) = none ∨ (some 1 : Option ℝ) = some 0 ∨
      (some 0 : Option ℝ) = none ∨ (some 0 : Option ℝ) = some 0 ∨
      (some 3 : Option ℝ) = none ∨ (some 3 : Option ℝ) = some 0) ∧
    calculateDistance (some 1) (some 1) (some 0) (some 3) = none :=
  ⟨Or.inr (Or.inr (Or.inr (Or.inr (Or.inr (Or.inl rfl))))),
   calculateDistance_zero_is_null.1 (some 1) (some 1) (some 0) (some 3)
     (Or.inr (Or.inr (Or.inr (Or.inr (Or.inr (Or.inl rfl))))))⟩

/-- Claim C9 counterexample: a successful auto-match creation (the session
observes match id 0) whose stored record carries no icebreaker at all —
the icebreaker generator is not invoked on this creation path. -/
theorem autoMatch_missing_icebreaker :
    (tryAutoMatch 2 none none [uvCand] [] initSession).2.matchFound = some 0 ∧
    (tryAutoMatch 2 none none [uvCand] [] initSession).1 =
      [{ id := 0, user1_id := 1, user2_id := 2, icebreaker := none }] :=
  ⟨rfl, rfl⟩

/-- Claim C9 (amended): on the manual `handleMatch` path the attached
icebreaker is the trimmed generator output on success and the fixed
non-empty fallback line on failure, and generator failure never fails the
match — the insert still proceeds and succeeds. -/
theorem handleMatch_icebreaker_attached (meId targetId : UserId) (s : String)
    (ai : Option String) (store : List MatchRow)
    (hp : hasPair store (handleMatchPair meId targetId) = false) :
    handleMatchIcebreaker (some s) = s.trim ∧
    handleMatchIcebreaker none = fallbackIcebreaker ∧
    fallbackIcebreaker ≠ "" ∧
    handleMatch meId targetId ai store =
      (store ++ [⟨store.length, (handleMatchPair meId targetId).1,
          (handleMatchPair meId targetId).2, some (handleMatchIcebreaker ai)⟩],
        some ⟨store.length, (handleMatchPair meId targetId).1,
          (handleMatchPair meId targetId).2, some (handleMatchIcebreaker ai)⟩,
        false) := by
  refine ⟨rfl, rfl, by decide, ?_⟩
  unfold handleMatch insertMatch
  simp [Prod.mk.eta, hp]

/-- Witness for C9 (amended): the full insert on an empty store with a
failing generator. -/
theorem handleMatch_icebreaker_attached_witness :
    hasPair [] (handleMatchPair 2 1) = false ∧
    handleMatch 2 1 none [] =
      ([⟨0, (handleMatchPair 2 1).1, (handleMatchPair 2 1).2,
          some (handleMatchIcebreaker none)⟩],
        some ⟨0, (handleMatchPair 2 1).1, (handleMatchPair 2 1).2,
          some (handleMatchIcebreaker none)⟩,
        false) :=
  ⟨rfl, (handleMatch_icebreaker_attached 2 1 "x" none [] rfl).2.2.2⟩

/-- Claim C1 counterexample: the canonical record for the pair {1, 2}
already exists with match id 0; the session whose insert conflicts ends its
attempt with `matchFound = none` — it does not read back the existing
record and never observes match id 0. -/
theorem conflict_no_readback_counterexample :
    hasPair store0 (tryAutoMatchPair 2 1) = true ∧
    (tryAutoMatch 2 none none [uvCand] store0 initSession).1 = store0 ∧
    (tryAutoMatch 2 none none [uvCand] store0 initSession).2.matchFound = none :=
  ⟨rfl, rfl, rfl⟩

/-- Claim C1 (amended): when the conditional insert fails because the
canonical pair already has a record, both the auto-match and the forced
match leave the store and the session state entirely unchanged — the error
is swallowed and there is no read-back of the existing record. -/
theorem insert_conflict_leaves_state :
    (∀ (meId : UserId) (meLat meLon : Option ℝ) (avail : List UVRow)
        (store : List MatchRow) (st : SessionState) (t : Ranked) (rest : List Ranked),
      sortBy distCmpLE (usersWithDistance meLat meLon avail) = t :: rest →
      hasPair store (tryAutoMatchPair meId t.uv.users.id) = true →
      tryAutoMatch meId meLat meLon avail store st = (store, st)) ∧
    (∀ (meId : UserId) (rows : List UVRow) (store : List MatchRow)
        (st : SessionState) (t : UVRow) (rest : List UVRow),
      forcePool rows = t :: rest →
      hasPair store (forceMatchPair meId t.users.id) = true →
      forceMatchAfterWait meId rows store st = (store, st)) := by
  constructor
  · intro meId meLat meLon avail store st t rest hsort hpair
    have hins : insertMatch store (tryAutoMatchPair meId t.uv.users.id).1
        (tryAutoMatchPair meId t.uv.users.id).2 none = (store, none, true) := by
      unfold insertMatch
      rw [Prod.mk.eta, if_pos hpair]
    unfold tryAutoMatch
    by_cases hg : (st.matchFound.isSome || st.matching) = true
    · rw [if_pos hg]
    · rw [if_neg hg, hsort]
      simp [hins]
  · intro meId rows store st t rest hpool hpair
    have hins : insertMatch store (forceMatchPair meId t.users.id).1
        (forceMatchPair meId t.users.id).2 none = (store, none, true) := by
      unfold insertMatch
      rw [Prod.mk.eta, if_pos hpair]
    unfold forceMatchAfterWait
    by_cases hg : (st.matchFound.isSome || st.matching) = true
    · rw [if_pos hg]
    · rw [if_neg hg, hpool]
      simp [hins]

/-- A user id is in `matchedUserIds` exactly when some stored match pairs it
with the requester (in either orientation), provided the id is not the
requester's own. -/
theorem mem_matchedUserIds (meId x : UserId) (store : List MatchRow)
    (hx : x ≠ meId) :
    x ∈ matchedUserIds meId store ↔
      ∃ m ∈ store, (m.user1_id = meId ∧ m.user2_id = x) ∨
        (m.user1_id = x ∧ m.user2_id = meId) := by
  unfold matchedUserIds myMatches
  simp only [List.mem_map, List.mem_filter, Bool.or_eq_true, beq_iff_eq]
  constructor
  · rintro ⟨m, ⟨hm, hor⟩, hval⟩
    refine ⟨m, hm, ?_⟩
    by_cases h1 : m.user1_id = meId
    · left
      refine ⟨h1, ?_⟩
      simpa [h1] using hval
    · right
      have h2 : m.user2_id = meId := hor.resolve_left h1
      refine ⟨?_, h2⟩
      simpa [h1] using hval
  · rintro ⟨m, hm, ⟨h1, h2⟩ | ⟨h1, h2⟩⟩
    · exact ⟨m, ⟨hm, Or.inl h1⟩, by simp [h1, h2]⟩
    · refine ⟨m, ⟨hm, Or.inr h2⟩, ?_⟩
      rw [h1, if_neg (by simpa using hx)]

/-- Claim C5: for a requester with both gender fields set, the eligibility
pipeline's output contains a (non-self) candidate exactly when the
candidate's gender fields are both present, mutual interest holds in both
directions, and no stored match pairs the candidate with the requester. -/
theorem eligibility_characterization (me : Profile) (meId : UserId)
    (rows : List UVRow) (store : List MatchRow) (uv : UVRow)
    (_hg : jsPresent me.gender = true) (_hs : jsPresent me.seeking_gender = true)
    (hid : uv.users.id ≠ meId) :
    uv ∈ availableUsers me meId rows store ↔
      uv ∈ rows ∧ jsPresent uv.users.gender = true ∧
      jsPresent uv.users.seeking_gender = true ∧
      (uv.users.seeking_gender = some "all" ∨ uv.users.seeking_gender = me.gender) ∧
      (me.seeking_gender = some "all" ∨ me.seeking_gender = uv.users.gender) ∧
      ¬ ∃ m ∈ store, (m.user1_id = meId ∧ m.user2_id = uv.users.id) ∨
        (m.user1_id = uv.users.id ∧ m.user2_id = meId) := by
  unfold availableUsers eligibleUsers mutualInterest
  rw [List.mem_filter, List.mem_filter]
  rw [Bool.not_eq_true', ← Bool.not_eq_true]
  rw [List.elem_iff]
  rw [mem_matchedUserIds meId uv.users.id store hid]
  simp only [Bool.and_eq_true, Bool.or_eq_true, beq_iff_eq]
  tauto

/-- Witness for C5 at a concrete mutually interested candidate. -/
theorem eligibility_characterization_witness :
    jsPresent (Profile.mk (some "male") (some "female")).gender = true ∧
    jsPresent (Profile.mk (some "male") (some "female")).seeking_gender = true ∧
    uvCand.users.id ≠ 2 ∧
    (uvCand ∈ availableUsers ⟨some "male", some "female"⟩ 2 [uvCand] [] ↔
      uvCand ∈ [uvCand] ∧ jsPresent uvCand.users.gender = true ∧
      jsPresent uvCand.users.seeking_gender = true ∧
      (uvCand.users.seeking_gender = some "all" ∨
        uvCand.users.seeking_gender = (Profile.mk (some "male") (some "female")).gender) ∧
      ((Profile.mk (some "male") (some "female")).seeking_gender = some "all" ∨
        (Profile.mk (some "male") (some "female")).seeking_gender = uvCand.users.gender) ∧
      ¬ ∃ m ∈ ([] : List MatchRow), (m.user1_id = 2 ∧ m.user2_id = uvCand.users.id) ∨
        (m.user1_id = uvCand.users.id ∧ m.user2_id = 2)) :=
  ⟨rfl, rfl, by decide,
   eligibility_characterization ⟨some "male", some "female"⟩ 2 [uvCand] [] uvCand
     rfl rfl (by decide)⟩

/-- Claim C8: the forced-match pool is exactly the other users at the venue
with both gender fields set (mutual interest ignored); the first such
candidate is the one inserted, with the canonical pair and no icebreaker;
and with an empty pool the operation changes nothing — the session keeps
waiting and no match is inserted. -/
theorem forceMatch_relaxed (meId : UserId) (rows : List UVRow)
    (store : List MatchRow) (st : SessionState) (uv t : UVRow) (rest : List UVRow) :
    (uv ∈ forcePool rows ↔ uv ∈ rows ∧ jsPresent uv.users.gender = true ∧
      jsPresent uv.users.seeking_gender = true) ∧
    (forcePool rows = [] → forceMatchAfterWait meId rows store st = (store, st)) ∧
    (st.matchFound = none → st.matching = false → forcePool rows = t :: rest →
      hasPair store (forceMatchPair meId t.users.id) = false →
      forceMatchAfterWait meId rows store st =
        (store ++ [⟨store.length, (forceMatchPair meId t.users.id).1,
            (forceMatchPair meId t.users.id).2, none⟩],
          { st with matchFound := some store.length })) := by
  refine ⟨?_, ?_, ?_⟩
  · unfold forcePool
    rw [List.mem_filter]
    simp only [Bool.and_eq_true]
  · intro hpool
    unfold forceMatchAfterWait
    by_cases hgd : (st.matchFound.isSome || st.matching) = true
    · rw [if_pos hgd]
    · rw [if_neg hgd, hpool]
  · intro hmf hmg hpool hpair
    have hins : insertMatch store (forceMatchPair meId t.users.id).1
        (forceMatchPair meId t.users.id).2 none =
        (store ++ [⟨store.length, (forceMatchPair meId t.users.id).1,
          (forceMatchPair meId t.users.id).2, none⟩],
         some ⟨store.length, (forceMatchPair meId t.users.id).1,
          (forceMatchPair meId t.users.id).2, none⟩, false) := by
      unfold insertMatch
      rw [Prod.mk.eta, if_neg (by rw [hpair]; exact Bool.false_ne_true)]
    unfold forceMatchAfterWait
    rw [if_neg (by rw [hmf, hmg]; simp), hpool]
    simp [hins]

/-- Witness for C8 with a one-candidate pool and an empty store. -/
theorem forceMatch_relaxed_witness :
    (⟨none, false⟩ : SessionState).matchFound = none ∧
    (⟨none, false⟩ : SessionState).matching = false ∧
    forcePool [uvCand] = uvCand :: [] ∧
    hasPair [] (forceMatchPair 2 uvCand.users.id) = false ∧
    forceMatchAfterWait 2 [uvCand] [] ⟨none, false⟩ =
      ([⟨0, (forceMatchPair 2 uvCand.users.id).1,
          (forceMatchPair 2 uvCand.users.id).2, none⟩],
        { (⟨none, false⟩ : SessionState) with matchFound := some 0 }) :=
  ⟨rfl, rfl, rfl, rfl,
   (forceMatch_relaxed 2 [uvCand] [] ⟨none, false⟩ uvCand uvCand []).2.2
     rfl rfl rfl rfl⟩

/-- Every element of `insertBy le x l` is `x` or an element of `l`. -/
theorem mem_insertBy {α : Type} (le : α → α → Bool) (x : α) (l : List α) (z : α)
    (hz : z ∈ insertBy le x l) : z = x ∨ z ∈ l := by
  induction l with
  | nil =>
    simp only [insertBy, List.mem_singleton] at hz
    exact Or.inl hz
  | cons y ys ih =>
    simp only [insertBy] at hz
    by_cases hle : le x y = true
    · rw [if_pos hle] at hz
      rcases List.mem_cons.mp hz with rfl | hz'
      · exact Or.inl rfl
      · exact Or.inr hz'
    · rw [if_neg hle] at hz
      rcases List.mem_cons.mp hz with rfl | hz'
      · exact Or.inr (List.mem_cons_self _ _)
      · rcases ih hz' with h | h
        · exact Or.inl h
        · exact Or.inr (List.mem_cons_of_mem _ h)

/-- Inserting into a pairwise-ordered list preserves the order, given that
the comparator implies the order in both directions and the order is
transitive. -/
theorem pairwise_insertBy {α : Type} (le : α → α → Bool) (R : α → α → Prop)
    (hT : ∀ a b, le a b = true → R a b)
    (hF : ∀ a b, le a b = false → R b a)
    (htrans : ∀ a b c, R a b → R b c → R a c)
    (x : α) (l : List α) (hl : l.Pairwise R) :
    (insertBy le x l).Pairwise R := by
  induction l with
  | nil => simp [insertBy]
  | cons y ys ih =>
    obtain ⟨hy, hys⟩ := List.pairwise_cons.mp hl
    simp only [insertBy]
    by_cases hle : le x y = true
    · rw [if_pos hle]
      refine List.pairwise_cons.mpr ⟨?_, hl⟩
      intro z hz
      rcases List.mem_cons.mp hz with rfl | hz'
      · exact hT _ _ hle
      · exact htrans _ _ _ (hT _ _ hle) (hy z hz')
    · rw [if_neg hle]
      refine List.pairwise_cons.mpr ⟨?_, ih hys⟩
      intro z hz
      rcases mem_insertBy le x ys z hz with rfl | hz'
      · exact hF _ _ (Bool.not_eq_true _ ▸ hle)
      · exact hy z hz'

/-- The comparison sort produces a pairwise-ordered list under the same
assumptions. -/
theorem pairwise_sortBy {α : Type} (le : α → α → Bool) (R : α → α → Prop)
    (hT : ∀ a b, le a b = true → R a b)
    (hF : ∀ a b, le a b = false → R b a)
    (htrans : ∀ a b c, R a b → R b c → R a c)
    (l : List α) : (sortBy le l).Pairwise R := by
  induction l with
  | nil => simp [sortBy]
  | cons x xs ih =>
    exact pairwise_insertBy le R hT hF htrans x (sortBy le xs) ih

/-- A true comparator outcome entails the ranker order. -/
theorem distCmpLE_true {a b : Ranked} (h : distCmpLE a b = true) : distLE a b := by
  rcases a with ⟨ua, da⟩
  rcases b with ⟨ub, db⟩
  unfold distCmpLE at h
  unfold distLE
  rcases da with _ | x <;> rcases db with _ | y <;> simp_all

/-- A false comparator outcome entails the reversed ranker order. -/
theorem distCmpLE_false {a b : Ranked} (h : distCmpLE a b = false) : distLE b a := by
  rcases a with ⟨ua, da⟩
  rcases b with ⟨ub, db⟩
  unfold distCmpLE at h
  unfold distLE
  rcases da with _ | x <;> rcases db with _ | y <;> simp_all
  linarith

/-- The ranker order is transitive. -/
theorem distLE_trans (a b c : Ranked) (hab : distLE a b) (hbc : distLE b c) :
    distLE a c := by
  rcases a with ⟨ua, da⟩
  rcases b with ⟨ub, db⟩
  rcases c with ⟨uc, dc⟩
  unfold distLE at hab hbc ⊢
  rcases da with _ | x <;> rcases db with _ | y <;> rcases dc with _ | z <;>
    simp_all
  linarith

/-- The haversine intermediate `a` is symmetric in the two endpoints. -/
theorem havA_comm (lat1 lon1 lat2 lon2 : ℝ) :
    havA lat1 lon1 lat2 lon2 = havA lat2 lon2 lat1 lon1 := by
  unfold havA
  have h : ∀ u v : ℝ,
      Real.sin ((u - v) * Real.pi / 180 / 2) * Real.sin ((u - v) * Real.pi / 180 / 2) =
      Real.sin ((v - u) * Real.pi / 180 / 2) * Real.sin ((v - u) * Real.pi / 180 / 2) := by
    intro u v
    have e : (v - u) * Real.pi / 180 / 2 = -((u - v) * Real.pi / 180 / 2) := by ring
    rw [e, Real.sin_neg]
    ring
  rw [h lat2 lat1, h lon2 lon1,
    mul_comm (Real.cos (lat1 * Real.pi / 180)) (Real.cos (lat2 * Real.pi / 180))]

/-- The haversine distance is symmetric. -/
theorem haversine_comm (lat1 lon1 lat2 lon2 : ℝ) :
    haversine lat1 lon1 lat2 lon2 = haversine lat2 lon2 lat1 lon1 := by
  unfold haversine
  rw [havA_comm]

/-- Claim C6 counterexample: with the requester's coordinate missing, two
candidates both have null-free coordinate pairs and undefined computed
distances, so no output order can place every null-free-coordinate candidate
before every undefined-distance candidate — the claim's ordering property
fails on the ranker's output. -/
theorem ranker_claim_order_counterexample :
    ¬ rankerClaimOrder (sortBy distCmpLE (usersWithDistance none none [uvKnownA, uvKnownB])) := by
  intro h
  have h10 := h ⟨1, by decide⟩ ⟨0, by decide⟩ (by decide) rfl rfl
  exact absurd h10 (by decide)

/-- Claim C6 (amended): the ranked output is pairwise ordered — defined
distances ascend and every candidate with a defined distance comes before
every candidate with an undefined distance (a null-free coordinate pair does
not guarantee a defined distance) — and `calculateDistance` is symmetric in
its two endpoints. -/
theorem ranker_sorted_and_symmetric :
    (∀ (meLat meLon : Option ℝ) (avail : List UVRow),
      (sortBy distCmpLE (usersWithDistance meLat meLon avail)).Pairwise distLE) ∧
    (∀ lat1 lon1 lat2 lon2 : Option ℝ,
      calculateDistance lat1 lon1 lat2 lon2 = calculateDistance lat2 lon2 lat1 lon1) := by
  constructor
  · intro meLat meLon avail
    exact pairwise_sortBy distCmpLE distLE (fun _ _ => distCmpLE_true)
      (fun _ _ => distCmpLE_false) distLE_trans _
  · intro lat1 lon1 lat2 lon2
    rcases lat1 with _ | a <;> rcases lon1 with _ | b <;>
      rcases lat2 with _ | c <;> rcases lon2 with _ | d <;> try rfl
    simp only [calculateDistance]
    exact if_congr (by tauto) rfl (by rw [haversine_comm])

/-- Witness for C1 (amended) at the concrete conflicting store. -/
theorem insert_conflict_leaves_state_witness :
    sortBy distCmpLE (usersWithDistance none none [uvCand]) = ⟨uvCand, none⟩ :: [] ∧
    hasPair store0 (tryAutoMatchPair 2 uvCand.users.id) = true ∧
    tryAutoMatch 2 none none [uvCand] store0 initSession = (store0, initSession) :=
  ⟨rfl, rfl,
   insert_conflict_leaves_state.1 2 none none [uvCand] store0 initSession
     ⟨uvCand, none⟩ [] rfl rfl⟩

/-- One tick step preserves the tick invariant. -/
theorem tickStep_inv (meId otherId : UserId) (r : String) (ok : Bool)
    (sh : ChatShared) (lo : TickLocal) (h : TickInv lo) :
    TickInv (tickStep meId otherId r ok sh lo).2 := by
  obtain ⟨h0, h1⟩ := h
  rcases lo with ⟨pc, snap, app⟩
  cases pc
  case capture =>
    exact ⟨fun _ => h0 (Or.inl rfl), h1⟩
  case check =>
    by_cases hc : (lastFromHuman meId snap && !sh.aiReply && !sh.generating) = true
    · simp only [tickStep, hc, if_true]
      exact ⟨fun _ => h0 (Or.inr (Or.inl rfl)), h1⟩
    · simp only [tickStep, if_neg hc]
      refine ⟨?_, h1⟩
      rintro (h' | h' | h') <;> exact TickPC.noConfusion h'
  case gen =>
    have happ : app = 0 := h0 (Or.inr (Or.inr rfl))
    refine ⟨?_, ?_⟩
    · rintro (h' | h' | h') <;> exact TickPC.noConfusion h'
    · show app + (if ok then 1 else 0) ≤ 1
      rw [happ]
      cases ok <;> simp
  case clear =>
    refine ⟨?_, h1⟩
    rintro (h' | h' | h') <;> exact TickPC.noConfusion h'
  case done =>
    refine ⟨?_, h1⟩
    rintro (h' | h' | h') <;> exact TickPC.noConfusion h'

/-- Running any interleaving preserves both ticks' invariants. -/
theorem runTwoTicks_inv (meId otherId : UserId) (r1 r2 : String) (ok1 ok2 : Bool)
    (sched : List Bool) (s : TwoTicks) (h1 : TickInv s.t1) (h2 : TickInv s.t2) :
    TickInv (runTwoTicks meId otherId r1 r2 ok1 ok2 sched s).t1 ∧
    TickInv (runTwoTicks meId otherId r1 r2 ok1 ok2 sched s).t2 := by
  induction sched generalizing s with
  | nil => exact ⟨h1, h2⟩
  | cons b bs ih =>
    have hstep : runTwoTicks meId otherId r1 r2 ok1 ok2 (b :: bs) s =
        runTwoTicks meId otherId r1 r2 ok1 ok2 bs
          (twoTickStep meId otherId r1 r2 ok1 ok2 s b) := rfl
    rw [hstep]
    apply ih
    · cases b
      · exact h1
      · exact tickStep_inv meId otherId r1 ok1 s.sh s.t1 h1
    · cases b
      · exact tickStep_inv meId otherId r2 ok2 s.sh s.t2 h2
      · exact h2

/-- Claim C3 counterexample: two overlapping reply-check ticks, where the
second tick's store read was served before the first tick appended its reply
but its continuation ran afterwards.  Both ticks pass the check and both
append, so the final message list carries two automated replies immediately
after the single last human message, and the second check passed even though
the store's most recent message was by then the automated reply. -/
theorem overlapping_ticks_double_reply :
    (runTwoTicks 7 8 "hey" "hey" true true staleSched
        ⟨chatInit, tickInit, tickInit⟩).sh.messages =
      [⟨7, "m1"⟩, ⟨7, "m2"⟩, ⟨8, "hey".trim⟩, ⟨8, "hey".trim⟩] ∧
    countFrom 8 (runTwoTicks 7 8 "hey" "hey" true true staleSched
        ⟨chatInit, tickInit, tickInit⟩).sh.messages = 2 ∧
    lastFromHuman 7 (runTwoTicks 7 8 "hey" "hey" true true (staleSched.take 5)
        ⟨chatInit, tickInit, tickInit⟩).sh.messages = false ∧
    (runTwoTicks 7 8 "hey" "hey" true true (staleSched.take 6)
        ⟨chatInit, tickInit, tickInit⟩).t2.pc = TickPC.gen :=
  ⟨rfl, by decide, by decide, rfl⟩

/-- Claim C3 (amended): a reply-check tick proceeds to generation exactly
when its snapshot's most recent message is from the human party and the
ReplyGuard pair is clear at that instant, and each tick appends at most one
automated reply — but, as the counterexample shows, two overlapping ticks
with a stale snapshot can each append one. -/
theorem reply_cycle_guarded :
    (∀ (meId otherId : UserId) (reply : String) (ok : Bool)
        (sh : ChatShared) (lo : TickLocal),
      lo.pc = .check →
      ((tickStep meId otherId reply ok sh lo).2.pc = .gen ↔
        (lastFromHuman meId lo.snap = true ∧ sh.aiReply = false ∧
          sh.generating = false))) ∧
    (∀ (meId otherId : UserId) (r1 r2 : String) (ok1 ok2 : Bool)
        (sched : List Bool) (sh : ChatShared),
      (runTwoTicks meId otherId r1 r2 ok1 ok2 sched
        ⟨sh, tickInit, tickInit⟩).t1.appended ≤ 1 ∧
      (runTwoTicks meId otherId r1 r2 ok1 ok2 sched
        ⟨sh, tickInit, tickInit⟩).t2.appended ≤ 1) := by
  constructor
  · intro meId otherId reply ok sh lo hpc
    rcases lo with ⟨pc, snap, app⟩
    have hpc' : pc = .check := hpc
    subst hpc'
    by_cases hc : (lastFromHuman meId snap && !sh.aiReply && !sh.generating) = true
    · have hc' := hc
      simp only [Bool.and_eq_true, Bool.not_eq_true'] at hc'
      simp only [tickStep, hc, if_true]
      exact iff_of_true trivial ⟨hc'.1.1, hc'.1.2, hc'.2⟩
    · simp only [tickStep, if_neg hc]
      refine iff_of_false (fun h' => TickPC.noConfusion h') ?_
      rintro ⟨hl, ha, hg⟩
      rw [hl, ha, hg] at hc
      exact hc rfl
  · intro meId otherId r1 r2 ok1 ok2 sched sh
    have hinv := runTwoTicks_inv meId otherId r1 r2 ok1 ok2 sched
      ⟨sh, tickInit, tickInit⟩ ⟨fun _ => rfl, Nat.zero_le 1⟩
      ⟨fun _ => rfl, Nat.zero_le 1⟩
    exact ⟨hinv.1.2, hinv.2.2⟩

/-- Witness for C3 (amended): a concrete tick at its check step with a
human-last snapshot and a clear guard proceeds to generation. -/
theorem reply_cycle_guarded_witness :
    (⟨TickPC.check, [⟨7, "m"⟩], 0⟩ : TickLocal).pc = TickPC.check ∧
    ((tickStep 7 8 "r" true ⟨[⟨7, "m"⟩], false, false⟩
        ⟨TickPC.check, [⟨7, "m"⟩], 0⟩).2.pc = TickPC.gen ↔
      (lastFromHuman 7 [⟨7, "m"⟩] = true ∧
        (⟨[⟨7, "m"⟩], false, false⟩ : ChatShared).aiReply = false ∧
        (⟨[⟨7, "m"⟩], false, false⟩ : ChatShared).generating = false)) :=
  ⟨rfl, reply_cycle_guarded.1 7 8 "r" true ⟨[⟨7, "m"⟩], false, false⟩
    ⟨TickPC.check, [⟨7, "m"⟩], 0⟩ rfl⟩

/-- Running an event sequence decomposes over append. -/
theorem runWait_append (d : ℚ) (a b : List WaitEv) (st : WaitState) :
    runWait d (a ++ b) st = runWait d b (runWait d a st) := by
  simp [runWait, List.foldl_append]

/-- Timer ticks that stay strictly below the deadline only accumulate
elapsed time: nothing fires and no other field changes. -/
theorem runWait_ticks_below (d : ℚ) :
    ∀ (n : ℕ) (st : WaitState), st.elapsed + n / 10 < d →
    runWait d (List.replicate n .tick) st =
      { st with elapsed := st.elapsed + n / 10 } := by
  intro n
  induction n with
  | zero =>
    intro st h
    rcases st with ⟨e, mf, mg, f⟩
    simp [runWait]
  | succ n ih =>
    intro st h
    rcases st with ⟨e, mf, mg, f⟩
    have hn : (0:ℚ) ≤ (n:ℚ) := Nat.cast_nonneg n
    push_cast at h
    have hcond : ¬ (e + 1/10 ≥ d ∧ mf = false ∧ mg = false) := by
      intro hc
      have hge : d ≤ e + 1/10 := hc.1
      linarith
    have hstep : waitStep d ⟨e, mf, mg, f⟩ .tick = ⟨e + 1/10, mf, mg, f⟩ := by
      rw [show waitStep d ⟨e, mf, mg, f⟩ .tick =
        if e + 1/10 ≥ d ∧ mf = false ∧ mg = false then
          (⟨e + 1/10, mf, true, f + 1⟩ : WaitState)
        else ⟨e + 1/10, mf, mg, f⟩ from rfl, if_neg hcond]
    rw [List.replicate_succ,
      show runWait d (.tick :: List.replicate n .tick) ⟨e, mf, mg, f⟩ =
        runWait d (List.replicate n .tick)
          (waitStep d ⟨e, mf, mg, f⟩ .tick) from rfl,
      hstep, ih ⟨e + 1/10, mf, mg, f⟩ (by push_cast; linarith)]
    simp only [WaitState.mk.injEq]
    refine ⟨?_, trivial, trivial, trivial⟩
    push_cast
    ring

/-- Claim C7 counterexample: with the deadline drawn at 5.0 s, the escalator
fires at the 50th tick; the forced attempt completes without forming a match
(no candidate), and the escalator fires again at the very next tick — the
wait timer is never cancelled after a fire, so it fires twice for one
session. -/
theorem escalator_refires : (runWait 5 refireEvs waitInit).fires = 2 := by
  have h49 : runWait 5 (List.replicate 49 .tick) waitInit = ⟨49/10, false, false, 0⟩ := by
    have h := runWait_ticks_below 5 49 waitInit (by norm_num [waitInit])
    rw [h]
    norm_num [waitInit]
  have h50 : waitStep 5 ⟨49/10, false, false, 0⟩ .tick = ⟨5, false, true, 1⟩ := by
    rw [show waitStep 5 ⟨49/10, false, false, 0⟩ .tick =
      if (49:ℚ)/10 + 1/10 ≥ 5 ∧ (false = false) ∧ (false = false) then
        (⟨49/10 + 1/10, false, true, 0 + 1⟩ : WaitState)
      else ⟨49/10 + 1/10, false, false, 0⟩ from rfl]
    rw [if_pos (by norm_num)]
    norm_num
  have hC : waitStep 5 ⟨5, false, true, 1⟩ (.complete false) = ⟨5, false, false, 1⟩ := by
    rfl
  have h51 : waitStep 5 ⟨5, false, false, 1⟩ .tick = ⟨51/10, false, true, 2⟩ := by
    rw [show waitStep 5 ⟨5, false, false, 1⟩ .tick =
      if (5:ℚ) + 1/10 ≥ 5 ∧ (false = false) ∧ (false = false) then
        (⟨5 + 1/10, false, true, 1 + 1⟩ : WaitState)
      else ⟨5 + 1/10, false, false, 1⟩ from rfl]
    rw [if_pos (by norm_num)]
    norm_num
  have hsplit : refireEvs =
      (List.replicate 49 .tick ++ [WaitEv.tick]) ++ [.complete false, .tick] := by
    rw [refireEvs, ← List.replicate_succ']
  rw [hsplit, runWait_append, runWait_append, h49]
  have e1 : runWait 5 [WaitEv.tick] ⟨49/10, false, false, 0⟩ = ⟨5, false, true, 1⟩ := by
    simp only [runWait, List.foldl_cons, List.foldl_nil]
    exact h50
  have e2 : runWait 5 [WaitEv.complete false, WaitEv.tick] ⟨5, false, true, 1⟩ =
      ⟨51/10, false, true, 2⟩ := by
    simp only [runWait, List.foldl_cons, List.foldl_nil]
    rw [hC, h51]
  rw [e1, e2]

/-- Claim C7 (amended): the drawn deadline always lies in [5, 8); a tick
fires exactly when the accumulated time has reached the deadline, no match
has formed and the MatchAttemptGuard is clear; an attempt completion never
fires; and once a match has formed the escalator never fires again.  (A
forced attempt that completes without a match leaves the session eligible to
fire again, as the counterexample shows.) -/
theorem escalator_guarded :
    (∀ r : ℚ, 0 ≤ r → r < 1 → 5 ≤ drawDeadline r ∧ drawDeadline r < 8) ∧
    (∀ (d : ℚ) (st : WaitState),
      ((waitStep d st .tick).fires = st.fires + 1 ↔
        (st.elapsed + 1/10 ≥ d ∧ st.matchFound = false ∧ st.matching = false)) ∧
      (∀ f, (waitStep d st (.complete f)).fires = st.fires)) ∧
    (∀ (d : ℚ) (evs : List WaitEv) (st : WaitState), st.matchFound = true →
      (runWait d evs st).fires = st.fires) := by
  refine ⟨?_, ?_, ?_⟩
  · intro r h0 h1
    unfold drawDeadline
    constructor <;> linarith
  · intro d st
    constructor
    · by_cases hc : (st.elapsed + 1/10 ≥ d ∧ st.matchFound = false ∧ st.matching = false)
      · rw [show waitStep d st .tick =
          if st.elapsed + 1/10 ≥ d ∧ st.matchFound = false ∧ st.matching = false then
            (⟨st.elapsed + 1/10, st.matchFound, true, st.fires + 1⟩ : WaitState)
          else ⟨st.elapsed + 1/10, st.matchFound, st.matching, st.fires⟩ from rfl,
          if_pos hc]
        exact iff_of_true rfl hc
      · rw [show waitStep d st .tick =
          if st.elapsed + 1/10 ≥ d ∧ st.matchFound = false ∧ st.matching = false then
            (⟨st.elapsed + 1/10, st.matchFound, true, st.fires + 1⟩ : WaitState)
          else ⟨st.elapsed + 1/10, st.matchFound, st.matching, st.fires⟩ from rfl,
          if_neg hc]
        exact iff_of_false (by simp) hc
    · intro f
      by_cases hm : st.matching = true
      · rw [show waitStep d st (.complete f) =
          if st.matching then (⟨st.elapsed, st.matchFound || f, false, st.fires⟩ : WaitState)
          else st from rfl, if_pos hm]
      · rw [show waitStep d st (.complete f) =
          if st.matching then (⟨st.elapsed, st.matchFound || f, false, st.fires⟩ : WaitState)
          else st from rfl, if_neg hm]
  · intro d evs
    induction evs with
    | nil => intro st _; rfl
    | cons e es ih =>
      intro st h
      have hpres : (waitStep d st e).matchFound = true ∧
          (waitStep d st e).fires = st.fires := by
        cases e with
        | tick =>
          have hcond : ¬ (st.elapsed + 1/10 ≥ d ∧ st.matchFound = false ∧
              st.matching = false) := by
            intro hc
            rw [h] at hc
            exact Bool.noConfusion hc.2.1
          rw [show waitStep d st .tick =
            if st.elapsed + 1/10 ≥ d ∧ st.matchFound = false ∧ st.matching = false then
              (⟨st.elapsed + 1/10, st.matchFound, true, st.fires + 1⟩ : WaitState)
            else ⟨st.elapsed + 1/10, st.matchFound, st.matching, st.fires⟩ from rfl,
            if_neg hcond]
          exact ⟨h, rfl⟩
        | complete f =>
          by_cases hm : st.matching = true
          · rw [show waitStep d st (.complete f) =
              if st.matching then
                (⟨st.elapsed, st.matchFound || f, false, st.fires⟩ : WaitState)
              else st from rfl, if_pos hm]
            refine ⟨?_, rfl⟩
            simp [h]
          · rw [show waitStep d st (.complete f) =
              if st.matching then
                (⟨st.elapsed, st.matchFound || f, false, st.fires⟩ : WaitState)
              else st from rfl, if_neg hm]
            exact ⟨h, rfl⟩
      rw [show runWait d (e :: es) st = runWait d es (waitStep d st e) from rfl,
        ih (waitStep d st e) hpres.1, hpres.2]

/-- Witness for C7 (amended): the deadline drawn at `Math.random() = 0` is
5 s, and a session with a formed match never fires on further events. -/
theorem escalator_guarded_witness :
    (0:ℚ) ≤ 0 ∧ (0:ℚ) < 1 ∧ (5 ≤ drawDeadline 0 ∧ drawDeadline 0 < 8) ∧
    (⟨0, true, false, 3⟩ : WaitState).matchFound = true ∧
    (runWait 7 [.tick, .complete false, .tick] ⟨0, true, false, 3⟩).fires = 3 :=
  ⟨le_refl 0, zero_lt_one, escalator_guarded.1 0 (le_refl 0) zero_lt_one, rfl,
   escalator_guarded.2.2 7 [.tick, .complete false, .tick] ⟨0, true, false, 3⟩ rfl⟩
